import Mathlib

/-
Verification of the rsnake terminal snake game (src/main.rs).

The source is shallowly embedded: the mutating Rust methods become pure
functions producing new values, the body LinkedList becomes a Lean List
(front = head of the list), u16 axis values become Nat (every arithmetic
operation in the source is guarded so no u16 overflow or underflow can
occur in the guarded branch, hence Nat is a faithful model on the whole
u16 range), and the random draws of rand::Rng::gen_range are modelled by
a seed parameter reduced into the half-open range.
-/

namespace Rsnake

/-- Embeds struct Vector(u16, u16): a grid coordinate, x then y. -/
structure Vector where
  x : Nat
  y : Nat
deriving DecidableEq, Repr

/-- Embeds struct Dimensions: inclusive x and y bound pairs (lo, hi). -/
structure Dimensions where
  x : Nat × Nat
  y : Nat × Nat
deriving DecidableEq, Repr

/-- Embeds Vector::move_left: decrement x, wrapping to the upper x bound. -/
def Vector.move_left (v : Vector) (dimensions : Dimensions) : Vector :=
  if v.x > dimensions.x.1 then { v with x := v.x - 1 }
  else { v with x := dimensions.x.2 }

/-- Embeds Vector::move_right: increment x, wrapping to the lower x bound. -/
def Vector.move_right (v : Vector) (dimensions : Dimensions) : Vector :=
  if v.x < dimensions.x.2 then { v with x := v.x + 1 }
  else { v with x := dimensions.x.1 }

/-- Embeds Vector::move_up: decrement y, wrapping to the upper y bound. -/
def Vector.move_up (v : Vector) (dimensions : Dimensions) : Vector :=
  if v.y > dimensions.y.1 then { v with y := v.y - 1 }
  else { v with y := dimensions.y.2 }

/-- Embeds Vector::move_down: increment y, wrapping to the lower y bound. -/
def Vector.move_down (v : Vector) (dimensions : Dimensions) : Vector :=
  if v.y < dimensions.y.2 then { v with y := v.y + 1 }
  else { v with y := dimensions.y.1 }

/-- Embeds enum Direction. -/
inductive Direction where
  | left
  | up
  | right
  | down
deriving DecidableEq, Repr, Fintype

/-- The match on self.direction inside Game::go_forward: step a coordinate
one wrapped cell in the given direction. -/
def step_in_direction (d : Direction) (v : Vector) (dims : Dimensions) : Vector :=
  match d with
  | .right => v.move_right dims
  | .left => v.move_left dims
  | .up => v.move_up dims
  | .down => v.move_down dims

/-- The match on self.direction inside Game::extend_body: step a coordinate
one wrapped cell opposite to the given direction. -/
def step_opposite (d : Direction) (v : Vector) (dims : Dimensions) : Vector :=
  match d with
  | .right => v.move_left dims
  | .left => v.move_right dims
  | .up => v.move_down dims
  | .down => v.move_up dims

/-- Geometric opposite of a direction (Left-Right, Up-Down). -/
def Direction.opposite : Direction → Direction
  | .left => .right
  | .right => .left
  | .up => .down
  | .down => .up

/-- Embeds struct Game: body (front of the list = snake head), current
direction, grid dimensions, and the optional food block. -/
structure Game where
  body : List Vector
  direction : Direction
  dimensions : Dimensions
  block : Option Vector
deriving DecidableEq, Repr

/-- Embeds Game::go_forward: if the body has a front element, compute the
new head by stepping it in the current direction; if the food block equals
the new head, clear the block and keep the tail (pop_back = false);
push the new head at the front; pop the back unless the food was eaten.
An empty body is left untouched (the if-let falls through). -/
def Game.go_forward (g : Game) : Game :=
  match g.body with
  | [] => g
  | head :: _ =>
    let new_head := step_in_direction g.direction head g.dimensions
    if g.block = some new_head then
      { g with body := new_head :: g.body, block := none }
    else
      { g with body := (new_head :: g.body).dropLast }

/-- Embeds Game::extend_body: if the body has a back element, append a copy
of it stepped opposite to the current direction; an empty body gets the
coordinate (0, 0) appended. -/
def Game.extend_body (g : Game) : Game :=
  match g.body.getLast? with
  | some tail =>
    { g with body := g.body ++ [step_opposite g.direction tail g.dimensions] }
  | none => { g with body := g.body ++ [Vector.mk 0 0] }

/-- Embeds the key-event direction handling in main: a requested direction
replaces the current one unless the current direction is its exact
geometric opposite, in which case the event is ignored. -/
def setDirection (current requested : Direction) : Direction :=
  match requested with
  | .up => if current ≠ .down then .up else current
  | .down => if current ≠ .up then .down else current
  | .left => if current ≠ .right then .left else current
  | .right => if current ≠ .left then .right else current

/-- Models rand::Rng::gen_range(lo..hi) (external crate): a uniform draw
from the half-open range, made explicit by reducing a seed into it. -/
def gen_range (lo hi seed : Nat) : Nat := lo + seed % (hi - lo)

/-- Embeds the food-spawn expression in main: draw x from the half-open
x range and y from the half-open y range via gen_range. -/
def spawn_block (d : Dimensions) (sx sy : Nat) : Vector :=
  Vector.mk (gen_range d.x.1 d.x.2 sx) (gen_range d.y.1 d.y.2 sy)

/-- Input consumed by one iteration of the main loop: the two random seeds
used when the food must be respawned, and the optional direction key
pressed during the poll window. -/
structure LoopInput where
  sx : Nat
  sy : Nat
  key : Option Direction
deriving DecidableEq, Repr

/-- One iteration of the main loop, rendering omitted: go_forward, then
respawn the food block if it is absent, then apply the polled key (if any)
through the guarded direction handling. -/
def loopStep (g : Game) (input : LoopInput) : Game :=
  let g1 := g.go_forward
  let g2 :=
    match g1.block with
    | none => { g1 with block := some (spawn_block g1.dimensions input.sx input.sy) }
    | some _ => g1
  match input.key with
  | none => g2
  | some r => { g2 with direction := setDirection g2.direction r }

/-- The initial Game value built in main: single segment (5, 5), bounds
x = (1, 20) and y = (1, 10), direction Right, no food. -/
def initialGame : Game :=
  { body := [Vector.mk 5 5]
    direction := .right
    dimensions := { x := (1, 20), y := (1, 10) }
    block := none }

/-- Run the main loop from the initial state on a list of per-iteration
inputs. -/
def run (inputs : List LoopInput) : Game :=
  inputs.foldl loopStep initialGame

/-- A game state is reachable when some sequence of loop iterations
produces it from the initial state. -/
def Reachable (g : Game) : Prop := ∃ inputs, run inputs = g

/-- Engine error taxonomy of the collision-checked variant. -/
inductive EngineError where
  | emptyBody
deriving DecidableEq, Repr

/-- Tick outcome of the collision-checked variant. -/
inductive TickOutcome where
  | alive
  | gameOver
deriving DecidableEq, Repr

/-- Modelled from the spec: the collision-checked engine variant is not
present under src (only the collision-less Game::go_forward is). Per the
spec's tick state machine: an empty body is a fatal EmptyBody error; if
the new head is a member of the pre-tick body the tick produces GameOver
and aborts with the state unmodified; otherwise food check, grow or
advance, and respawn the food (from the given seeds) when absent. -/
def Game.tick_checked (g : Game) (sx sy : Nat) :
    Except EngineError (TickOutcome × Game) :=
  match g.body with
  | [] => .error .emptyBody
  | head :: _ =>
    let new_head := step_in_direction g.direction head g.dimensions
    if new_head ∈ g.body then .ok (.gameOver, g)
    else
      let g1 :=
        if g.block = some new_head then
          { g with body := new_head :: g.body, block := none }
        else
          { g with body := (new_head :: g.body).dropLast }
      let g2 :=
        match g1.block with
        | none => { g1 with block := some (spawn_block g1.dimensions sx sy) }
        | some _ => g1
      .ok (.alive, g2)

/-
Theorems settling the claims.
-/

/-- C1: move_left sets x to x-1 if x is above the lower x bound and to the
upper x bound otherwise; move_right sets x to x+1 if x is below the upper
x bound and to the lower x bound otherwise; move_up and move_down do the
same on y; in each case the orthogonal axis value is unchanged. -/
theorem moves_spec (v : Vector) (d : Dimensions) :
    ((v.move_left d).x = if v.x > d.x.1 then v.x - 1 else d.x.2) ∧
    (v.move_left d).y = v.y ∧
    ((v.move_right d).x = if v.x < d.x.2 then v.x + 1 else d.x.1) ∧
    (v.move_right d).y = v.y ∧
    ((v.move_up d).y = if v.y > d.y.1 then v.y - 1 else d.y.2) ∧
    (v.move_up d).x = v.x ∧
    ((v.move_down d).y = if v.y < d.y.2 then v.y + 1 else d.y.1) ∧
    (v.move_down d).x = v.x := by
  refine ⟨?_, ?_, ?_, ?_, ?_, ?_, ?_, ?_⟩ <;>
    simp only [Vector.move_left, Vector.move_right, Vector.move_up,
      Vector.move_down] <;>
    split <;> rfl

/-- C2: on an axis with lo < hi and a value between the bounds, a wrapped
decrement followed by a wrapped increment restores the value, and vice
versa: move_left then move_right restores the coordinate, as do
move_right/move_left, move_up/move_down and move_down/move_up. -/
theorem wrap_round_trip (v : Vector) (d : Dimensions)
    (hx : d.x.1 < d.x.2) (hy : d.y.1 < d.y.2)
    (hxlo : d.x.1 ≤ v.x) (hxhi : v.x ≤ d.x.2)
    (hylo : d.y.1 ≤ v.y) (hyhi : v.y ≤ d.y.2) :
    (v.move_left d).move_right d = v ∧ (v.move_right d).move_left d = v ∧
    (v.move_up d).move_down d = v ∧ (v.move_down d).move_up d = v := by
  obtain ⟨x, y⟩ := v
  refine ⟨?_, ?_, ?_, ?_⟩ <;>
    simp only [Vector.move_left, Vector.move_right, Vector.move_up,
      Vector.move_down] <;>
    split_ifs <;> simp_all [Vector.mk.injEq] <;> omega

/-- Witness for C2 at the initial head (5, 5) and the bounds of main. -/
theorem wrap_round_trip_witness :
    ((Vector.mk 5 5).move_left initialGame.dimensions).move_right
        initialGame.dimensions = Vector.mk 5 5 ∧
    ((Vector.mk 5 5).move_right initialGame.dimensions).move_left
        initialGame.dimensions = Vector.mk 5 5 ∧
    ((Vector.mk 5 5).move_up initialGame.dimensions).move_down
        initialGame.dimensions = Vector.mk 5 5 ∧
    ((Vector.mk 5 5).move_down initialGame.dimensions).move_up
        initialGame.dimensions = Vector.mk 5 5 :=
  wrap_round_trip (Vector.mk 5 5) initialGame.dimensions (by decide)
    (by decide) (by decide) (by decide) (by decide) (by decide)

/-- C3: the key-event direction handling never turns the current direction
into its exact opposite: an opposite request leaves the direction
unchanged, and every non-opposite request is accepted verbatim. -/
theorem set_direction_spec (c r : Direction) :
    setDirection c r ≠ c.opposite ∧
    (r = c.opposite → setDirection c r = c) ∧
    (r ≠ c.opposite → setDirection c r = r) := by
  cases c <;> cases r <;> simp [setDirection, Direction.opposite]

/-- Witness for C3: requesting Left while heading Right is ignored. -/
theorem set_direction_spec_witness :
    setDirection Direction.right Direction.left = Direction.right :=
  (set_direction_spec Direction.right Direction.left).2.1 rfl

/-- Game state used as a witness input: the initial state with food
placed at (6, 5), directly ahead of the head. -/
def gameGrow : Game := { initialGame with block := some (Vector.mk 6 5) }

/-- Game state used as a witness input: a two-cell vertical body heading
Down, so the head steps onto the segment behind it. -/
def gameTwo : Game :=
  { initialGame with
    body := [Vector.mk 5 5, Vector.mk 5 6]
    direction := .down }

/-- Game state used as a witness input: an empty body. -/
def gameEmpty : Game := { initialGame with body := [] }

/-- C4: when the food block is present and equals the stepped head, one
go_forward lengthens the body by exactly one, puts the new head at the
front with the previous body intact behind it, and clears the food. -/
theorem tick_growth (g : Game) (h : Vector) (rest : List Vector)
    (hb : g.body = h :: rest)
    (hf : g.block = some (step_in_direction g.direction h g.dimensions)) :
    (g.go_forward).body =
      step_in_direction g.direction h g.dimensions :: g.body ∧
    (g.go_forward).body.length = g.body.length + 1 ∧
    (g.go_forward).block = none := by
  obtain ⟨body, dir, dims, blk⟩ := g
  dsimp only at hb hf ⊢
  subst hb
  subst hf
  simp [Game.go_forward]

/-- Witness for C4: head (5, 5) heading Right with food at (6, 5). -/
theorem tick_growth_witness :
    gameGrow.go_forward.body =
      step_in_direction gameGrow.direction (Vector.mk 5 5)
        gameGrow.dimensions :: gameGrow.body ∧
    gameGrow.go_forward.body.length = gameGrow.body.length + 1 ∧
    gameGrow.go_forward.block = none :=
  tick_growth gameGrow (Vector.mk 5 5) [] rfl rfl

/-- C5: when the stepped head does not meet the food (absent or elsewhere)
and does not collide with the body, one go_forward keeps the body length,
pushes the new head at the front, drops the previous back element, and
leaves the food unchanged. -/
theorem tick_translate (g : Game) (h : Vector) (rest : List Vector)
    (hb : g.body = h :: rest)
    (hf : g.block ≠ some (step_in_direction g.direction h g.dimensions))
    (hc : step_in_direction g.direction h g.dimensions ∉ g.body) :
    (g.go_forward).body =
      step_in_direction g.direction h g.dimensions :: g.body.dropLast ∧
    (g.go_forward).body.length = g.body.length ∧
    (g.go_forward).block = g.block := by
  obtain ⟨body, dir, dims, blk⟩ := g
  dsimp only at hb hf hc ⊢
  subst hb
  simp [Game.go_forward, if_neg hf]

/-- Witness for C5: head (5, 5) heading Right with no food present. -/
theorem tick_translate_witness :
    initialGame.go_forward.body =
      step_in_direction initialGame.direction (Vector.mk 5 5)
        initialGame.dimensions :: initialGame.body.dropLast ∧
    initialGame.go_forward.body.length = initialGame.body.length ∧
    initialGame.go_forward.block = initialGame.block :=
  tick_translate initialGame (Vector.mk 5 5) [] rfl (by decide) (by decide)

/-- C6: in the collision-checked engine variant (modelled from the spec),
when the stepped head is a member of the pre-tick body, the tick reports
GameOver and returns the state unmodified, body and food included. -/
theorem tick_checked_self_collision (g : Game) (h : Vector) (rest : List Vector)
    (sx sy : Nat) (hb : g.body = h :: rest)
    (hc : step_in_direction g.direction h g.dimensions ∈ g.body) :
    g.tick_checked sx sy = .ok (.gameOver, g) := by
  obtain ⟨body, dir, dims, blk⟩ := g
  dsimp only at hb hc ⊢
  subst hb
  simp only [Game.tick_checked]
  rw [if_pos hc]

/-- Witness for C6: a two-cell vertical body whose head steps down onto
the segment right behind it. -/
theorem tick_checked_self_collision_witness :
    gameTwo.tick_checked 0 0 = .ok (.gameOver, gameTwo) :=
  tick_checked_self_collision gameTwo
    (Vector.mk 5 5) [Vector.mk 5 6] 0 0 rfl (by decide)

/-- C7: in the collision-checked engine variant (modelled from the spec),
a tick on an empty body fails with the fatal EmptyBody engine error, which
is distinct from every normal ok outcome, GameOver included. -/
theorem tick_checked_empty_body (g : Game) (sx sy : Nat)
    (hb : g.body = []) :
    g.tick_checked sx sy = .error .emptyBody ∧
    ∀ st : TickOutcome × Game, g.tick_checked sx sy ≠ .ok st := by
  obtain ⟨body, dir, dims, blk⟩ := g
  dsimp only at hb ⊢
  subst hb
  exact ⟨rfl, fun st hst => by simp [Game.tick_checked] at hst⟩

/-- Witness for C7 at the empty-body game state. -/
theorem tick_checked_empty_body_witness :
    gameEmpty.tick_checked 0 0 = .error .emptyBody ∧
    ∀ st : TickOutcome × Game, gameEmpty.tick_checked 0 0 ≠ .ok st :=
  tick_checked_empty_body gameEmpty 0 0 rfl

/-- C8: for valid bounds, every spawned food coordinate has x in the
half-open range from the lower x bound (inclusive) to the upper x bound
(exclusive) and likewise for y; and since the spawner never checks the
body, there are a body and a draw whose spawned coordinate lies on an
occupied body cell. -/
theorem spawn_spec (d : Dimensions) (sx sy : Nat)
    (hx : d.x.1 < d.x.2) (hy : d.y.1 < d.y.2) :
    (d.x.1 ≤ (spawn_block d sx sy).x ∧ (spawn_block d sx sy).x < d.x.2 ∧
     d.y.1 ≤ (spawn_block d sx sy).y ∧ (spawn_block d sx sy).y < d.y.2) ∧
    ∃ (body : List Vector) (tx ty : Nat), spawn_block d tx ty ∈ body := by
  constructor
  · have hxm : sx % (d.x.2 - d.x.1) < d.x.2 - d.x.1 :=
      Nat.mod_lt _ (by omega)
    have hym : sy % (d.y.2 - d.y.1) < d.y.2 - d.y.1 :=
      Nat.mod_lt _ (by omega)
    simp only [spawn_block, gen_range]
    omega
  · exact ⟨[spawn_block d 0 0], 0, 0, List.mem_singleton.mpr rfl⟩

/-- Witness for C8 at the bounds of main with seeds 25 and 3. -/
theorem spawn_spec_witness :
    (initialGame.dimensions.x.1 ≤
        (spawn_block initialGame.dimensions 25 3).x ∧
      (spawn_block initialGame.dimensions 25 3).x <
        initialGame.dimensions.x.2 ∧
      initialGame.dimensions.y.1 ≤
        (spawn_block initialGame.dimensions 25 3).y ∧
      (spawn_block initialGame.dimensions 25 3).y <
        initialGame.dimensions.y.2) ∧
    ∃ (body : List Vector) (tx ty : Nat),
      spawn_block initialGame.dimensions tx ty ∈ body :=
  spawn_spec initialGame.dimensions 25 3 (by decide) (by decide)

/-- C10: extend_body always lengthens the body by exactly one, keeps the
food block and the direction, preserves the existing elements in place,
appends (0, 0) when the body is empty, and otherwise appends a copy of
the old back element stepped one wrapped cell opposite to the current
direction (Right appends via move_left, Left via move_right, Up via
move_down, Down via move_up). -/
theorem extend_body_spec (g : Game) :
    g.extend_body.body.length = g.body.length + 1 ∧
    g.extend_body.block = g.block ∧
    g.extend_body.direction = g.direction ∧
    (g.body = [] → g.extend_body.body = [Vector.mk 0 0]) ∧
    (∀ t, g.body.getLast? = some t →
      g.extend_body.body =
        g.body ++ [step_opposite g.direction t g.dimensions]) := by
  obtain ⟨body, dir, dims, blk⟩ := g
  dsimp only
  match hl : body.getLast? with
  | some tail =>
    have hne : body ≠ [] := by
      intro he
      rw [he] at hl
      simp at hl
    simp only [Game.extend_body, hl]
    refine ⟨by simp, trivial, trivial, fun he => absurd he hne,
      fun t ht => ?_⟩
    injection ht with h2
    rw [h2]
  | none =>
    have he : body = [] := by
      cases body with
      | nil => rfl
      | cons a l => simp [List.getLast?_concat] at hl
    subst he
    simp [Game.extend_body]

/-- Witness for C10 at the initial single-segment state. -/
theorem extend_body_spec_witness :
    initialGame.extend_body.body =
      initialGame.body ++
        [step_opposite initialGame.direction (Vector.mk 5 5)
          initialGame.dimensions] :=
  (extend_body_spec initialGame).2.2.2.2 (Vector.mk 5 5) rfl

/-- The concrete loop-input trace showing the body can overlap itself:
four ticks eating food placed ahead of the head each time (growing the
body to five segments), then a Right-Down-Left-Up turn bringing the head
back onto its own body. -/
def badTrace : List LoopInput :=
  [LoopInput.mk 6 4 none, LoopInput.mk 7 4 none, LoopInput.mk 8 4 none,
   LoopInput.mk 9 4 none, LoopInput.mk 0 0 (some .down),
   LoopInput.mk 0 0 (some .left), LoopInput.mk 0 0 (some .up),
   LoopInput.mk 0 0 none]

/-- C9: refuted on the code. The state reached from the initial state by
the badTrace inputs has the coordinate (9, 5) twice in its body, so its
body coordinates are not pairwise distinct, even though the state is
reachable through ticks and accepted direction changes only and no
game-over ever occurs (go_forward performs no self-collision check). -/
theorem body_overlap_reachable :
    Reachable (run badTrace) ∧
    (run badTrace).body =
      [Vector.mk 9 5, Vector.mk 9 6, Vector.mk 10 6, Vector.mk 10 5,
       Vector.mk 9 5] ∧
    ¬ (run badTrace).body.Nodup :=
  ⟨⟨badTrace, rfl⟩, by decide, by decide⟩

end Rsnake
